import Mathlib

/-!
Shallow embedding of `gcpy/benchmark.py` (the grid-reconciliation and
comparison engine of `compare_single_level` and its siblings), together with
proofs settling the specification claims about it.

Numeric payloads are modelled as rationals; IEEE-special behaviour of the
difference arrays (NaN, plus or minus infinity) is modelled by the `PyFloat`
type below with explicit arithmetic mimicking the float semantics the code
relies on.
-/

namespace Gcpy

/-- A classified horizontal grid: either a lat-lon grid identified by its
resolution label (a string such as "4x5"), or a cubed-sphere grid identified
by its face edge length. In the Python source the resolution variable holds a
string for lat-lon grids and an integer for cubed-sphere grids; the two cases
are disjoint, which this sum type makes explicit. -/
inductive GridRes where
  | ll (label : String)
  | cs (n : Nat)
deriving DecidableEq, Repr

/-- Grid classification from dimension sizes, transcribed from
`compare_single_level` lines 261-291: the (46,72) and (91,144) lat-lon table
entries are checked first, then the cubed-sphere shape test
`nlat/6 == nlon` (equivalently `nlat = 6 * nlon`), and any other shape is a
classification failure (the code prints an error and returns). -/
def classify (nlat nlon : Nat) : Option GridRes :=
  if nlat = 46 ∧ nlon = 72 then some (GridRes.ll "4x5")
  else if nlat = 91 ∧ nlon = 144 then some (GridRes.ll "2x2.5")
  else if nlat = 6 * nlon then some (GridRes.cs nlon)
  else none

/-- Lexicographic comparison of character lists by code point, as Python
compares strings. -/
def pyCharsLt : List Char → List Char → Bool
  | [], [] => false
  | [], _ :: _ => true
  | _ :: _, [] => false
  | a :: as, b :: bs =>
      if a.toNat < b.toNat then true
      else if b.toNat < a.toNat then false
      else pyCharsLt as bs

/-- Python's `<` on strings: lexicographic by code point. -/
def pyStrLt (a b : String) : Bool :=
  pyCharsLt a.data b.data

/-- Python's `min([a, b])` on two strings: lexicographic comparison by code
point; `min` keeps the first element when the two are equal. -/
def pyStrMin (a b : String) : String :=
  if pyStrLt b a then b else a

/-- Python's `max([a, b])` on two naturals. -/
def pyNatMax (a b : Nat) : Nat :=
  if b > a then b else a

/-- Comparison-grid choice when no explicit `cmpres` is passed, transcribed
from `compare_single_level` lines 299-311: equal lat-lon resolutions are
kept; two different lat-lon resolutions go through Python's `min` on the
label strings; two cubed-sphere resolutions go through `max` on the face
sizes; mixed grid types fall back to the fixed lat-lon default "1x1.25". -/
def resolveComparison (refres devres : GridRes) : GridRes :=
  match refres, devres with
  | GridRes.ll a, GridRes.ll b =>
      if a = b then GridRes.ll a else GridRes.ll (pyStrMin a b)
  | GridRes.cs m, GridRes.cs n => GridRes.cs (pyNatMax m n)
  | GridRes.ll _, GridRes.cs _ => GridRes.ll "1x1.25"
  | GridRes.cs _, GridRes.ll _ => GridRes.ll "1x1.25"

/-- `regridref = refres != cmpres` (and likewise for dev), lines 318-319. -/
def regridNeeded (res cmpres : GridRes) : Bool :=
  res != cmpres

/-- Extended numeric value mimicking the IEEE-754 behaviour that the numpy
difference arrays rely on: a finite value (modelled as a rational, which has
a single zero), positive infinity, negative infinity, or NaN. -/
inductive PyFloat where
  | fin (q : ℚ)
  | pinf
  | ninf
  | nan
deriving DecidableEq, Repr

/-- IEEE subtraction on `PyFloat`: NaN propagates; infinities of the same
sign cancel to NaN; otherwise the usual rules. -/
def PyFloat.sub : PyFloat → PyFloat → PyFloat
  | PyFloat.nan, _ => PyFloat.nan
  | _, PyFloat.nan => PyFloat.nan
  | PyFloat.fin a, PyFloat.fin b => PyFloat.fin (a - b)
  | PyFloat.fin _, PyFloat.pinf => PyFloat.ninf
  | PyFloat.fin _, PyFloat.ninf => PyFloat.pinf
  | PyFloat.pinf, PyFloat.fin _ => PyFloat.pinf
  | PyFloat.ninf, PyFloat.fin _ => PyFloat.ninf
  | PyFloat.pinf, PyFloat.pinf => PyFloat.nan
  | PyFloat.pinf, PyFloat.ninf => PyFloat.pinf
  | PyFloat.ninf, PyFloat.pinf => PyFloat.ninf
  | PyFloat.ninf, PyFloat.ninf => PyFloat.nan

/-- IEEE negation on `PyFloat`. -/
def PyFloat.neg : PyFloat → PyFloat
  | PyFloat.fin a => PyFloat.fin (-a)
  | PyFloat.pinf => PyFloat.ninf
  | PyFloat.ninf => PyFloat.pinf
  | PyFloat.nan => PyFloat.nan

/-- IEEE division on `PyFloat` (single zero, so `x/0` takes the sign of
`x`): NaN propagates, `0/0` is NaN, a nonzero finite value divided by zero
is a signed infinity — exactly what numpy produces (with warnings) in the
fractional-difference computation. -/
def PyFloat.div : PyFloat → PyFloat → PyFloat
  | PyFloat.nan, _ => PyFloat.nan
  | _, PyFloat.nan => PyFloat.nan
  | PyFloat.fin a, PyFloat.fin b =>
      if b = 0 then
        if 0 < a then PyFloat.pinf
        else if a < 0 then PyFloat.ninf
        else PyFloat.nan
      else PyFloat.fin (a / b)
  | PyFloat.fin _, PyFloat.pinf => PyFloat.fin 0
  | PyFloat.fin _, PyFloat.ninf => PyFloat.fin 0
  | PyFloat.pinf, PyFloat.fin b => if 0 ≤ b then PyFloat.pinf else PyFloat.ninf
  | PyFloat.ninf, PyFloat.fin b => if 0 ≤ b then PyFloat.ninf else PyFloat.pinf
  | PyFloat.pinf, PyFloat.pinf => PyFloat.nan
  | PyFloat.pinf, PyFloat.ninf => PyFloat.nan
  | PyFloat.ninf, PyFloat.pinf => PyFloat.nan
  | PyFloat.ninf, PyFloat.ninf => PyFloat.nan

/-- Absolute difference array, line 619/621 of the source:
`absdiff = ds_dev_cmp - ds_ref_cmp`, elementwise over the comparison grid
(for cubed-sphere comparison grids the same subtraction is applied to the
reshaped (6,N,N) arrays; the index type `ι` covers both layouts). -/
def absdiff {ι : Type} (refc devc : ι → PyFloat) : ι → PyFloat :=
  fun i => PyFloat.sub (devc i) (refc i)

/-- Raw fractional difference, line 686/689:
`fracdiff = (ds_dev_cmp - ds_ref_cmp) / ds_ref_cmp` elementwise. -/
def rawFracdiff {ι : Type} (refc devc : ι → PyFloat) : ι → PyFloat :=
  fun i => PyFloat.div (PyFloat.sub (devc i) (refc i)) (refc i)

/-- Fractional difference after the masking assignment of line 687/690:
`fracdiff[(ds_dev_cmp == 0) & (ds_ref_cmp == 0)] = np.nan` — positions where
both inputs are exactly zero are overwritten with NaN; every other position
keeps the raw quotient. -/
def fracdiff {ι : Type} (refc devc : ι → PyFloat) : ι → PyFloat :=
  fun i =>
    if devc i = PyFloat.fin 0 ∧ refc i = PyFloat.fin 0 then PyFloat.nan
    else rawFracdiff refc devc i

/-- Regrid-or-identity step of the comparison pipeline, lines 483-508: a
slice is passed through the regridder obtained for (its own resolution,
comparison resolution) exactly when the two differ, and used unchanged
otherwise. `R` stands for the family of regridding operators. -/
def onCmpGrid {ι : Type} (R : GridRes → GridRes → (ι → PyFloat) → (ι → PyFloat))
    (cmpres res : GridRes) (data : ι → PyFloat) : ι → PyFloat :=
  if regridNeeded res cmpres then R res cmpres data else data

/-- The absolute-difference output of one engine run: resolve the comparison
grid from the two classified input grids, put each slice on the comparison
grid, and subtract dev-minus-ref elementwise. -/
def compareAbsdiff {ι : Type} (R : GridRes → GridRes → (ι → PyFloat) → (ι → PyFloat))
    (refres devres : GridRes) (refData devData : ι → PyFloat) : ι → PyFloat :=
  absdiff (onCmpGrid R (resolveComparison refres devres) refres refData)
          (onCmpGrid R (resolveComparison refres devres) devres devData)

/-- `hay` starts with `needle`, on character lists. -/
def charsStartWith : List Char → List Char → Bool
  | [], _ => true
  | _ :: _, [] => false
  | a :: as, b :: bs => a = b && charsStartWith as bs

/-- `needle` occurs as a contiguous sublist of `hay`. -/
def charsContain (needle : List Char) : List Char → Bool
  | [] => charsStartWith needle []
  | c :: cs => charsStartWith needle (c :: cs) || charsContain needle cs

/-- Python's substring membership `needle in hay` on strings. -/
def strContains (hay needle : String) : Bool :=
  charsContain needle.data hay.data

/-- The exclusion list of `compare_single_level` line 458:
`exclude_list = ['WetLossConvFrac','Prod_','Loss_']`. -/
def exclude_list : List String :=
  ["WetLossConvFrac", "Prod_", "Loss_"]

/-- `any(s in varname for s in exclude_list)`, line 460. -/
def isExcluded (varname : String) : Bool :=
  exclude_list.any (fun s => strContains varname s)

/-- Area normalization, transcribed from lines 458-470 of
`compare_single_level`: the layer is divided elementwise by the cell-area
field, and the units string gets a "/m2" suffix and the subtitle the
", Normalized by Area" tag, exactly when regridding is needed
(`regridany`) and (the units are exactly "kg" or "kgC", or the
`normalize_by_area` flag is set) and the variable name contains no
exclusion-list substring; in every other case the layer, units and subtitle
are unchanged. Returns (layer, units, subtitle_extra). -/
def areaNormalize {ι : Type} (regridany normalize_by_area : Bool)
    (varname units : String) (layer area : ι → ℚ) : (ι → ℚ) × String × String :=
  if regridany && ((units == "kg" || units == "kgC") || normalize_by_area) then
    if !(isExcluded varname) then
      (fun i => layer i / area i, units ++ "/m2", ", Normalized by Area")
    else (layer, units, "")
  else (layer, units, "")

/-- A labeled multi-dimensional array in the style of `xarray.DataArray`:
a list of dimension names together with a value function over full index
assignments (indices are integers, as in Python, so `71 - ilev` never
truncates). -/
structure DataArray where
  dims : List String
  val : (String → Int) → ℚ

/-- `da.isel(d=i)`: fix dimension `d` at index `i`, dropping it from the
dimension list. -/
def isel (da : DataArray) (d : String) (i : Int) : DataArray :=
  { dims := da.dims.erase d
    val := fun idx => da.val (fun d2 => if d2 = d then i else idx d2) }

/-- Layer slicing, transcribed from `compare_single_level` lines 411-426
(the ref slice; the dev slice at lines 429-443 is identical with its own
flip flag): dispatch on which of the `time` and `lev` axes the variable
declares, selecting `itime` on the time axis and `71 - ilev` (flip) or
`ilev` (no flip) on the level axis. -/
def sliceLayer (da : DataArray) (itime ilev : Int) (flip : Bool) : DataArray :=
  if "time" ∈ da.dims then
    if "lev" ∈ da.dims then
      if flip then isel (isel da "time" itime) "lev" (71 - ilev)
      else isel (isel da "time" itime) "lev" ilev
    else isel da "time" itime
  else if "lev" ∈ da.dims then
    if flip then isel da "lev" (71 - ilev) else isel da "lev" ilev
  else da

/-- Whitespace test for Python's `str.strip()` with no argument. -/
def isSpaceChar (c : Char) : Bool :=
  c = ' ' || c = '\t' || c = '\n' || c = '\r'

/-- Python's `s.strip()`: remove leading and trailing whitespace. -/
def pyStrip (s : String) : String :=
  String.mk (((s.data.dropWhile isSpaceChar).reverse.dropWhile isSpaceChar).reverse)

/-- Per-variable data relevant to the units check: the variable name and
the units strings declared by ref and dev. -/
structure VarUnits where
  name : String
  units_ref : String
  units_dev : String
deriving DecidableEq

/-- `units_ref.strip() != units_dev.strip()`, lines 393-395. -/
def unitsMismatch (v : VarUnits) : Bool :=
  pyStrip v.units_ref != pyStrip v.units_dev

/-- The variable loop of `compare_single_level` restricted to its
units-handling effects (lines 385-405 and 450): walks the variable list
threading the `print_units_warning` flag; on a mismatch it prints the
warning if the flag is still set, then — if `enforce_units` — fails on the
spot (the `assert`), otherwise clears the flag and continues; each
processed variable's record carries `units = units_ref` (stripped) as the
units used from then on. Returns the number of warnings printed and the
per-variable (name, units-used) records, or the failing variable's name. -/
def unitsLoop (enforce_units : Bool) :
    List VarUnits → Bool → Except String (Nat × List (String × String))
  | [], _ => Except.ok (0, [])
  | v :: rest, warnFlag =>
    if unitsMismatch v then
      if enforce_units then Except.error v.name
      else
        match unitsLoop enforce_units rest false with
        | Except.error e => Except.error e
        | Except.ok (w, rs) =>
            Except.ok ((if warnFlag then 1 else 0) + w, (v.name, pyStrip v.units_ref) :: rs)
    else
      match unitsLoop enforce_units rest warnFlag with
      | Except.error e => Except.error e
      | Except.ok (w, rs) => Except.ok (w, (v.name, pyStrip v.units_ref) :: rs)

/-- Run-level skeleton of `compare_single_level`: both input grids are
classified first (lines 261-291); if either classification fails the
function stops there — the code prints the unsupported-grid error and
returns with no per-variable work done — and otherwise the per-variable
loop runs. -/
def compareSingleLevelRun (refnlat refnlon devnlat devnlon : Nat)
    (enforce_units : Bool) (vars : List VarUnits) :
    Option (Except String (Nat × List (String × String))) :=
  match classify refnlat refnlon with
  | none => none
  | some _ =>
    match classify devnlat devnlon with
    | none => none
    | some _ => some (unitsLoop enforce_units vars true)

/-- Names bound at the top level of the `gcpy.benchmark` module: the
imports of lines 3-22, the module constants of lines 29-30, and the
function definitions. -/
def moduleTopLevelNames : List String :=
  ["os", "np", "xr", "plt", "ccrs", "mpl", "ticker", "PdfPages",
   "ListedColormap", "crs", "GeoAxes", "PdfFileWriter", "PdfFileReader",
   "WhGrYlRd", "add_latlon_ticks", "make_grid_LL", "make_grid_CS",
   "make_regridder_C2L", "make_regridder_L2L", "cmap_abs", "cmap_diff",
   "plot_layer", "plot_zonal", "make_pdf", "compare_single_level",
   "compare_gchp_single_level", "compare_gchp_vs_gcc_single_level",
   "compare_zonal_mean", "compare_gchp_zonal_mean", "add_bookmarks_to_pdf",
   "add_hierarchical_bookmarks_to_pdf", "compare_gchp_vs_gcc_zonal_mean"]

/-- The comparison functions of the module; each takes `varlist=None` as
default and, on that default path, evaluates the global name
`compare_varnames` (lines 253, 762, 930, 1148, 1424, 1662). -/
def comparisonFunctions : List String :=
  ["compare_single_level", "compare_gchp_single_level",
   "compare_gchp_vs_gcc_single_level", "compare_zonal_mean",
   "compare_gchp_zonal_mean", "compare_gchp_vs_gcc_zonal_mean"]

/-- Outcome of resolving the variable list at the head of a comparison
function. -/
inductive VarlistOutcome where
  | ok (vs : List String)
  | nameError (missing : String)
deriving DecidableEq, Repr

/-- The `if varlist == None:` prologue shared by every comparison function:
with an explicit list, use it; with the `None` default, evaluate the global
name `compare_varnames` in the module namespace — if the name is unbound
this raises `NameError` before any variable is compared (the branch where
the name would be bound cannot produce a list here, since no such binding
exists anywhere in the module; it is modelled as an empty list). -/
def resolveVarlist (env : List String) (varlist : Option (List String)) : VarlistOutcome :=
  match varlist with
  | some vs => VarlistOutcome.ok vs
  | none =>
      if env.contains "compare_varnames" then VarlistOutcome.ok []
      else VarlistOutcome.nameError "compare_varnames"

/-- A sample four-dimensional variable (time, lev, lat, lon) whose value
records the selected time and level indices. -/
def sampleArr : DataArray :=
  { dims := ["time", "lev", "lat", "lon"]
    val := fun idx => ((idx "time" + idx "lev" : Int) : ℚ) }

theorem pyNatMax_comm (m n : Nat) : pyNatMax m n = pyNatMax n m := by
  unfold pyNatMax
  split <;> split <;> omega

theorem PyFloat.neg_sub (a b : PyFloat) :
    PyFloat.neg (PyFloat.sub a b) = PyFloat.sub b a := by
  cases a <;> cases b <;> simp [PyFloat.sub, PyFloat.neg]

theorem classify_shape (nlat nlon : Nat) (r : GridRes)
    (h : classify nlat nlon = some r) :
    r = GridRes.ll "4x5" ∨ r = GridRes.ll "2x2.5" ∨ ∃ n, r = GridRes.cs n := by
  unfold classify at h
  split at h
  · exact Or.inl (Option.some.inj h).symm
  · split at h
    · exact Or.inr (Or.inl (Option.some.inj h).symm)
    · split at h
      · exact Or.inr (Or.inr ⟨nlon, (Option.some.inj h).symm⟩)
      · exact absurd h (by simp)

theorem resolveComparison_comm_classified (r d : GridRes)
    (hr : r = GridRes.ll "4x5" ∨ r = GridRes.ll "2x2.5" ∨ ∃ n, r = GridRes.cs n)
    (hd : d = GridRes.ll "4x5" ∨ d = GridRes.ll "2x2.5" ∨ ∃ n, d = GridRes.cs n) :
    resolveComparison r d = resolveComparison d r := by
  rcases hr with rfl | rfl | ⟨m, rfl⟩ <;> rcases hd with rfl | rfl | ⟨n, rfl⟩ <;>
    first
      | rfl
      | decide
      | simp [resolveComparison, pyNatMax_comm]

end Gcpy

namespace Gcpy

/-- C1 counterexample: with ref on the 46x72 grid (classified "4x5") and dev
on the 91x144 grid (classified "2x2.5") and no requested comparison
resolution, the engine does NOT select "4x5": Python's `min` on the label
strings is lexicographic and returns "2x2.5" (the finer grid), so it is ref
— not dev — that needs regridding, and dev needs none. -/
theorem c1_counterexample :
    classify 46 72 = some (GridRes.ll "4x5") ∧
    classify 91 144 = some (GridRes.ll "2x2.5") ∧
    resolveComparison (GridRes.ll "4x5") (GridRes.ll "2x2.5") ≠ GridRes.ll "4x5" ∧
    resolveComparison (GridRes.ll "4x5") (GridRes.ll "2x2.5") = GridRes.ll "2x2.5" ∧
    regridNeeded (GridRes.ll "4x5")
      (resolveComparison (GridRes.ll "4x5") (GridRes.ll "2x2.5")) = true ∧
    regridNeeded (GridRes.ll "2x2.5")
      (resolveComparison (GridRes.ll "4x5") (GridRes.ll "2x2.5")) = false := by
  decide

/-- C1 (amended): when no comparison resolution is requested: equal lat-lon
resolutions are kept; two different lat-lon resolutions go through Python's
`min` on the label strings (lexicographic), which for ref "4x5" and dev
"2x2.5" selects "2x2.5" — the finer grid — so only ref is regridded and
dev_on_cmp equals dev_native; two cubed-sphere grids take the larger face
size (the finer); mixed grid types fall back to "1x1.25". -/
theorem c1_resolveComparison (a b : String) (m n : Nat) (hab : a ≠ b) :
    resolveComparison (GridRes.ll a) (GridRes.ll a) = GridRes.ll a ∧
    resolveComparison (GridRes.ll a) (GridRes.ll b) = GridRes.ll (pyStrMin a b) ∧
    resolveComparison (GridRes.ll "4x5") (GridRes.ll "2x2.5") = GridRes.ll "2x2.5" ∧
    resolveComparison (GridRes.cs m) (GridRes.cs n) = GridRes.cs (pyNatMax m n) ∧
    resolveComparison (GridRes.ll a) (GridRes.cs n) = GridRes.ll "1x1.25" ∧
    resolveComparison (GridRes.cs m) (GridRes.ll a) = GridRes.ll "1x1.25" ∧
    regridNeeded (GridRes.ll "4x5")
      (resolveComparison (GridRes.ll "4x5") (GridRes.ll "2x2.5")) = true ∧
    regridNeeded (GridRes.ll "2x2.5")
      (resolveComparison (GridRes.ll "4x5") (GridRes.ll "2x2.5")) = false ∧
    ∀ (ι : Type) (R : GridRes → GridRes → (ι → PyFloat) → (ι → PyFloat))
      (devData : ι → PyFloat),
      onCmpGrid R (resolveComparison (GridRes.ll "4x5") (GridRes.ll "2x2.5"))
        (GridRes.ll "2x2.5") devData = devData := by
  refine ⟨by simp [resolveComparison], by simp [resolveComparison, hab],
    by decide, rfl, rfl, rfl, by decide, by decide, ?_⟩
  intro ι R devData
  have hfalse : regridNeeded (GridRes.ll "2x2.5")
      (resolveComparison (GridRes.ll "4x5") (GridRes.ll "2x2.5")) = false := by decide
  simp [onCmpGrid, hfalse]

/-- C1 witness for the amended theorem, instantiated at the two recognized
lat-lon resolutions. -/
theorem c1_witness :
    resolveComparison (GridRes.ll "4x5") (GridRes.ll "2x2.5")
      = GridRes.ll (pyStrMin "4x5" "2x2.5") :=
  (c1_resolveComparison "4x5" "2x2.5" 0 0 (by decide)).2.1

/-- C2: the fractional difference is (dev - ref) / ref elementwise, with NaN
exactly where both ref and dev are zero; a position with ref zero and dev
positive yields plus infinity (not special-cased away); a position with
ref = dev nonzero yields zero. -/
theorem c2_fracdiff {ι : Type} (refc devc : ι → PyFloat) (i : ι) :
    (refc i = PyFloat.fin 0 → devc i = PyFloat.fin 0 →
      fracdiff refc devc i = PyFloat.nan) ∧
    (∀ q : ℚ, 0 < q → refc i = PyFloat.fin 0 → devc i = PyFloat.fin q →
      fracdiff refc devc i = PyFloat.pinf) ∧
    (∀ q : ℚ, q ≠ 0 → refc i = PyFloat.fin q → devc i = PyFloat.fin q →
      fracdiff refc devc i = PyFloat.fin 0) ∧
    (∀ a b : ℚ, a ≠ 0 → refc i = PyFloat.fin a → devc i = PyFloat.fin b →
      fracdiff refc devc i = PyFloat.fin ((b - a) / a)) := by
  refine ⟨?_, ?_, ?_, ?_⟩
  · intro hr hd
    simp [fracdiff, hr, hd]
  · intro q hq hr hd
    simp [fracdiff, hr, hd, hq.ne', rawFracdiff, PyFloat.sub, PyFloat.div, hq]
  · intro q hq hr hd
    simp [fracdiff, hr, hd, hq, rawFracdiff, PyFloat.sub, PyFloat.div]
  · intro a b ha hr hd
    simp [fracdiff, hr, hd, ha, rawFracdiff, PyFloat.sub, PyFloat.div]

/-- C2 witness: ref = 0, dev = 5 at a position produces plus infinity. -/
theorem c2_witness :
    fracdiff (fun _ : Unit => PyFloat.fin 0) (fun _ => PyFloat.fin 5) ()
      = PyFloat.pinf :=
  (c2_fracdiff (fun _ : Unit => PyFloat.fin 0) (fun _ => PyFloat.fin 5) ()).2.1
    5 (by norm_num) rfl rfl

/-- C5: the classification table maps 46x72 to lat-lon "4x5" and 91x144 to
lat-lon "2x2.5"; any shape with nlat equal to 6 times nlon is classified
cubed-sphere with face size nlon; any other shape fails classification
rather than guessing a default. -/
theorem c5_classify (nlat nlon : Nat) :
    classify 46 72 = some (GridRes.ll "4x5") ∧
    classify 91 144 = some (GridRes.ll "2x2.5") ∧
    (nlat = 6 * nlon → classify nlat nlon = some (GridRes.cs nlon)) ∧
    (¬(nlat = 46 ∧ nlon = 72) → ¬(nlat = 91 ∧ nlon = 144) → nlat ≠ 6 * nlon →
      classify nlat nlon = none) := by
  refine ⟨by decide, by decide, ?_, ?_⟩
  · intro h
    subst h
    have h1 : ¬(6 * nlon = 46 ∧ nlon = 72) := by
      rintro ⟨h46, rfl⟩; omega
    have h2 : ¬(6 * nlon = 91 ∧ nlon = 144) := by
      rintro ⟨h91, rfl⟩; omega
    simp [classify, h1, h2]
  · intro h1 h2 h3
    simp [classify, h1, h2, h3]

/-- C5 witness: 24x4 is classified as cubed-sphere with face size 4. -/
theorem c5_witness : classify 24 4 = some (GridRes.cs 4) :=
  (c5_classify 24 4).2.2.1 (by norm_num)

/-- C6: if either input grid fails classification, the whole comparison run
stops before the variable loop: no variable is compared and no per-variable
results are produced. -/
theorem c6_unsupportedGrid (refnlat refnlon devnlat devnlon : Nat)
    (enforce_units : Bool) (vars : List VarUnits)
    (h : classify refnlat refnlon = none ∨ classify devnlat devnlon = none) :
    compareSingleLevelRun refnlat refnlon devnlat devnlon enforce_units vars
      = none := by
  rcases h with h | h
  · simp [compareSingleLevelRun, h]
  · cases hr : classify refnlat refnlon <;>
      simp [compareSingleLevelRun, hr, h]

/-- C6 witness: a 45x72 ref grid is unclassifiable, so the run yields no
results. -/
theorem c6_witness :
    compareSingleLevelRun 45 72 46 72 true [] = none :=
  c6_unsupportedGrid 45 72 46 72 true [] (Or.inl (by decide))

/-- C10: the name `compare_varnames` is bound nowhere at the top level of
the module, so every comparison function called with the default
varlist=None resolves it to a NameError before any variable is compared. -/
theorem c10_nameError :
    "compare_varnames" ∉ moduleTopLevelNames ∧
    ∀ f ∈ comparisonFunctions,
      resolveVarlist moduleTopLevelNames none
        = VarlistOutcome.nameError "compare_varnames" := by
  refine ⟨by decide, ?_⟩
  intro f _
  decide

/-- C10 witness: the default-varlist path of `compare_single_level` fails
with the NameError. -/
theorem c10_witness :
    resolveVarlist moduleTopLevelNames none
      = VarlistOutcome.nameError "compare_varnames" :=
  c10_nameError.2 "compare_single_level" (by decide)

/-- C3 counterexample: with `normalize_by_area = True` but no regridding
needed (`regridany = False`, as when both datasets share a grid), the
non-excluded variable "SpeciesConc_O3" with units "kg" is NOT divided by
area and its units do NOT become "kg/m2" — the code normalizes only when
regridding is also required. -/
theorem c3_counterexample :
    (areaNormalize false true "SpeciesConc_O3" "kg"
        (fun _ : Unit => (6 : ℚ)) (fun _ => (3 : ℚ))).2.1 = "kg" ∧
    (areaNormalize false true "SpeciesConc_O3" "kg"
        (fun _ : Unit => (6 : ℚ)) (fun _ => (3 : ℚ))).1 () = 6 ∧
    (areaNormalize false true "SpeciesConc_O3" "kg"
        (fun _ : Unit => (6 : ℚ)) (fun _ => (3 : ℚ))).2.1 ≠ "kg/m2" ∧
    (areaNormalize false true "SpeciesConc_O3" "kg"
        (fun _ : Unit => (6 : ℚ)) (fun _ => (3 : ℚ))).1 () ≠ 6 / 3 := by
  refine ⟨rfl, rfl, by decide, by norm_num [areaNormalize]⟩

/-- C3 (amended): a variable whose name contains an exclusion-list
substring is never divided by area and keeps its units under every flag
combination; with `normalize_by_area = True` AND regridding required, a
non-excluded variable is divided elementwise by the area field and its
units gain the "/m2" suffix. -/
theorem c3_areaNormalize {ι : Type} (regridany normalize_by_area : Bool)
    (varname units : String) (layer area : ι → ℚ) (i : ι) :
    (isExcluded varname = true →
      areaNormalize regridany normalize_by_area varname units layer area
        = (layer, units, "")) ∧
    (isExcluded varname = false →
      (areaNormalize true true varname units layer area).1 i = layer i / area i ∧
      (areaNormalize true true varname units layer area).2.1 = units ++ "/m2") := by
  constructor
  · intro h
    unfold areaNormalize
    split
    · simp [h]
    · rfl
  · intro h
    unfold areaNormalize
    simp [h]

/-- C3 witness: "Prod_NO" (excluded) stays untouched even with both flags
set, while "SpeciesConc_O3" is divided and gets "/m2" units. -/
theorem c3_witness :
    areaNormalize true true "Prod_NO" "kg"
        (fun _ : Unit => (6 : ℚ)) (fun _ => (3 : ℚ))
      = (fun _ => (6 : ℚ), "kg", "") ∧
    (areaNormalize true true "SpeciesConc_O3" "kg"
        (fun _ : Unit => (6 : ℚ)) (fun _ => (3 : ℚ))).1 () = 6 / 3 ∧
    (areaNormalize true true "SpeciesConc_O3" "kg"
        (fun _ : Unit => (6 : ℚ)) (fun _ => (3 : ℚ))).2.1 = "kg" ++ "/m2" :=
  ⟨(c3_areaNormalize true true "Prod_NO" "kg"
      (fun _ : Unit => (6 : ℚ)) (fun _ => (3 : ℚ)) ()).1 (by decide),
   (c3_areaNormalize true true "SpeciesConc_O3" "kg"
      (fun _ : Unit => (6 : ℚ)) (fun _ => (3 : ℚ)) ()).2 (by decide)⟩

/-- C4 counterexample: the claim predicts division whenever the
normalization flag is true, but with `normalize_by_area = True`, units
"kgC" and no regridding required the layer and units are unchanged: the
code requires `regridany` in every case. -/
theorem c4_counterexample :
    (areaNormalize false true "SpeciesConc_NO2" "kgC"
        (fun _ : Unit => (8 : ℚ)) (fun _ => (2 : ℚ))).1 () = 8 ∧
    (areaNormalize false true "SpeciesConc_NO2" "kgC"
        (fun _ : Unit => (8 : ℚ)) (fun _ => (2 : ℚ))).2.1 = "kgC" ∧
    (8 : ℚ) ≠ 8 / 2 ∧
    ("kgC" : String) ≠ "kgC" ++ "/m2" := by
  refine ⟨rfl, rfl, by norm_num, by decide⟩

/-- C4 (amended): a layer is divided elementwise by cell area exactly when
regridding is required and (the normalization flag is true or the units are
exactly "kg" or "kgC") and the variable is not on the exclusion list; in
every other case layer, units and subtitle are unchanged. -/
theorem c4_areaNormalize {ι : Type} (regridany normalize_by_area : Bool)
    (varname units : String) (layer area : ι → ℚ) :
    areaNormalize regridany normalize_by_area varname units layer area
      = if (regridany && ((units == "kg" || units == "kgC") || normalize_by_area))
            && !(isExcluded varname) then
          (fun i => layer i / area i, units ++ "/m2", ", Normalized by Area")
        else (layer, units, "") := by
  unfold areaNormalize
  cases h1 : (regridany && ((units == "kg" || units == "kgC") || normalize_by_area)) <;>
    cases h2 : isExcluded varname <;> simp [h1, h2]

/-- C7 helper: with units enforcement off, the loop never fails, prints the
warning at most at the first mismatch (never again once the flag is
cleared), and records the stripped ref units for every variable. -/
theorem unitsLoop_no_enforce (vars : List VarUnits) (w : Bool) :
    unitsLoop false vars w
      = Except.ok ((if w && vars.any unitsMismatch then 1 else 0),
          vars.map (fun v => (v.name, pyStrip v.units_ref))) := by
  induction vars generalizing w with
  | nil => simp [unitsLoop]
  | cons v rest ih =>
    cases hm : unitsMismatch v with
    | false =>
        simp [unitsLoop, hm, ih w]
    | true =>
        simp [unitsLoop, hm, ih false]

/-- C7: when ref and dev declare different (stripped) units: with
enforcement requested the loop fails at the first mismatching variable;
without enforcement it warns at most once, continues, and records the
ref-declared units for every variable. -/
theorem c7_units (vars : List VarUnits) (v : VarUnits) (warnFlag : Bool) :
    (vars.find? unitsMismatch = some v →
      unitsLoop true vars warnFlag = Except.error v.name) ∧
    (unitsLoop false vars true
        = Except.ok ((if vars.any unitsMismatch then 1 else 0),
            vars.map (fun u => (u.name, pyStrip u.units_ref))) ∧
      (if vars.any unitsMismatch then 1 else 0) ≤ 1) := by
  refine ⟨?_, ?_, ?_⟩
  · induction vars generalizing warnFlag with
    | nil => intro h; simp at h
    | cons u rest ih =>
      intro h
      cases hm : unitsMismatch u with
      | false =>
          rw [List.find?_cons_of_neg _ (by simp [hm])] at h
          simp [unitsLoop, hm, ih warnFlag h]
      | true =>
          rw [List.find?_cons_of_pos _ hm] at h
          cases h
          simp [unitsLoop, hm]
  · simpa using unitsLoop_no_enforce vars true
  · split <;> norm_num

/-- C7 witness: a single variable with mismatching units aborts the loop
under enforcement, naming that variable. -/
theorem c7_witness :
    unitsLoop true [⟨"O3", "kg", "mol/mol"⟩] true = Except.error "O3" :=
  (c7_units [⟨"O3", "kg", "mol/mol"⟩] ⟨"O3", "kg", "mol/mol"⟩ true).1 (by decide)

/-- C8: layer slicing dispatches on the declared axes: with both time and
level present it selects the time index and then the (possibly flipped,
71 - ilev) level index; with only level present it selects the level with
the same flip rule; with only time present it selects the time index and
keeps the other axes; with neither present the field is unchanged. -/
theorem c8_sliceLayer (da : DataArray) (itime ilev : Int) (flip : Bool)
    (idx : String → Int) :
    ("time" ∈ da.dims → "lev" ∈ da.dims →
      (sliceLayer da itime ilev flip).dims = (da.dims.erase "time").erase "lev" ∧
      (sliceLayer da itime ilev flip).val idx
        = da.val (fun d => if d = "time" then itime
            else if d = "lev" then (if flip then 71 - ilev else ilev)
            else idx d)) ∧
    ("time" ∉ da.dims → "lev" ∈ da.dims →
      (sliceLayer da itime ilev flip).dims = da.dims.erase "lev" ∧
      (sliceLayer da itime ilev flip).val idx
        = da.val (fun d => if d = "lev" then (if flip then 71 - ilev else ilev)
            else idx d)) ∧
    ("time" ∈ da.dims → "lev" ∉ da.dims →
      (sliceLayer da itime ilev flip).dims = da.dims.erase "time" ∧
      (sliceLayer da itime ilev flip).val idx
        = da.val (fun d => if d = "time" then itime else idx d)) ∧
    ("time" ∉ da.dims → "lev" ∉ da.dims →
      sliceLayer da itime ilev flip = da) := by
  refine ⟨?_, ?_, ?_, ?_⟩
  · intro ht hl
    cases flip <;> simp [sliceLayer, isel, ht, hl]
  · intro ht hl
    cases flip <;> simp [sliceLayer, isel, ht, hl]
  · intro ht hl
    cases flip <;> simp [sliceLayer, isel, ht, hl]
  · intro ht hl
    cases flip <;> simp [sliceLayer, isel, ht, hl]

/-- C8 witness: slicing the sample (time, lev, lat, lon) variable at
itime = 2, ilev = 1 with the flip flag selects level 70 and leaves the
horizontal axes. -/
theorem c8_witness :
    (sliceLayer sampleArr 2 1 true).dims = ["lat", "lon"] ∧
    (sliceLayer sampleArr 2 1 true).val (fun _ => 0) = 72 := by
  have h := (c8_sliceLayer sampleArr 2 1 true (fun _ => 0)).1
    (by decide) (by decide)
  exact ⟨h.1.trans (by decide), h.2.trans (by decide)⟩

/-- C9: absolute-difference antisymmetry — for any two classifiable inputs
and any family of regridding operators, the absolute-difference array of
(ref = A, dev = B) is the elementwise negation of that of
(ref = B, dev = A). -/
theorem c9_absdiffAntisym {ι : Type}
    (R : GridRes → GridRes → (ι → PyFloat) → (ι → PyFloat))
    (rlat rlon dlat dlon : Nat) (rres dres : GridRes)
    (refData devData : ι → PyFloat) (i : ι)
    (hr : classify rlat rlon = some rres)
    (hd : classify dlat dlon = some dres) :
    compareAbsdiff R rres dres refData devData i
      = PyFloat.neg (compareAbsdiff R dres rres devData refData i) := by
  have hc := resolveComparison_comm_classified rres dres
    (classify_shape rlat rlon rres hr) (classify_shape dlat dlon dres hd)
  unfold compareAbsdiff absdiff
  rw [hc, PyFloat.neg_sub]

/-- C9 witness: identity regridders, ref on 4x5 with value 1, dev on 2x2.5
with value 3. -/
theorem c9_witness :
    compareAbsdiff (fun _ _ d => d) (GridRes.ll "4x5") (GridRes.ll "2x2.5")
        (fun _ : Unit => PyFloat.fin 1) (fun _ => PyFloat.fin 3) ()
      = PyFloat.neg (compareAbsdiff (fun _ _ d => d)
          (GridRes.ll "2x2.5") (GridRes.ll "4x5")
          (fun _ : Unit => PyFloat.fin 3) (fun _ => PyFloat.fin 1) ()) :=
  c9_absdiffAntisym (fun _ _ d => d) 46 72 91 144
    (GridRes.ll "4x5") (GridRes.ll "2x2.5")
    (fun _ => PyFloat.fin 1) (fun _ => PyFloat.fin 3) ()
    (by decide) (by decide)

end Gcpy
